import Mathlib

/-!
Verification of `my-gold-price-agent` (`src/main.py`, class `UltimateGoldAgent`).

Shallow embedding: Python float arithmetic is modelled exactly over `ℚ`
(every Python float value is a rational); Python's `round` builtin
(round-half-to-even) is modelled by `pyRound` / `roundTo`; Python's
process-salted string `hash` and the libm functions `math.sin` / `math.pi`
are parameters of the embedding (a fixed Python process fixes them);
network and SMTP interactions are modelled by outcome parameters and an
effect trace; a Python exception escaping a function is `Except.error`.
-/

namespace GoldAgent

/-- Model of Python's builtin `round(q)`: round half to even (banker's
rounding), exact over `ℚ`. -/
def pyRound (q : ℚ) : ℤ :=
  if q - ⌊q⌋ < 1/2 then ⌊q⌋
  else if 1/2 < q - ⌊q⌋ then ⌊q⌋ + 1
  else if ⌊q⌋ % 2 = 0 then ⌊q⌋ else ⌊q⌋ + 1

/-- Model of Python's `round(q, n)`: round to `n` decimal digits. -/
def roundTo (n : ℕ) (q : ℚ) : ℚ := (pyRound (q * 10 ^ n) : ℚ) / 10 ^ n

theorem pyRound_cases (q : ℚ) : pyRound q = ⌊q⌋ ∨ pyRound q = ⌊q⌋ + 1 := by
  unfold pyRound
  split_ifs <;> simp

theorem le_pyRound {n : ℤ} {q : ℚ} (h : (n : ℚ) ≤ q) : n ≤ pyRound q := by
  have hf : n ≤ ⌊q⌋ := Int.le_floor.mpr h
  rcases pyRound_cases q with h1 | h1 <;> omega

theorem pyRound_intCast (n : ℤ) : pyRound (n : ℚ) = n := by
  unfold pyRound
  rw [Int.floor_intCast]
  norm_num

theorem pyRound_le {n : ℤ} {q : ℚ} (h : q ≤ (n : ℚ)) : pyRound q ≤ n := by
  have hf : ⌊q⌋ ≤ n := by
    calc ⌊q⌋ ≤ ⌊(n : ℚ)⌋ := Int.floor_le_floor h
    _ = n := Int.floor_intCast n
  rcases pyRound_cases q with h1 | h1
  · omega
  · -- pyRound q = ⌊q⌋ + 1; rule out ⌊q⌋ = n, which forces q = n, where pyRound = n
    rcases lt_or_eq_of_le hf with h2 | h2
    · omega
    · have hq : q = (n : ℚ) := le_antisymm h (by rw [← h2]; exact Int.floor_le q)
      rw [hq, pyRound_intCast, Int.floor_intCast] at h1
      omega

theorem le_roundTo {n : ℕ} {a : ℤ} {q : ℚ} (h : (a : ℚ) / 10 ^ n ≤ q) :
    (a : ℚ) / 10 ^ n ≤ roundTo n q := by
  have hp : (0 : ℚ) < 10 ^ n := by positivity
  have h1 : (a : ℚ) ≤ q * 10 ^ n := by
    rw [div_le_iff₀ hp] at h; exact h
  have h2 : (a : ℚ) ≤ (pyRound (q * 10 ^ n) : ℚ) := by
    exact_mod_cast le_pyRound h1
  unfold roundTo
  exact (div_le_div_iff_of_pos_right hp).mpr h2

theorem roundTo_le {n : ℕ} {a : ℤ} {q : ℚ} (h : q ≤ (a : ℚ) / 10 ^ n) :
    roundTo n q ≤ (a : ℚ) / 10 ^ n := by
  have hp : (0 : ℚ) < 10 ^ n := by positivity
  have h1 : q * 10 ^ n ≤ (a : ℚ) := by
    rw [le_div_iff₀ hp] at h; exact h
  have h2 : (pyRound (q * 10 ^ n) : ℚ) ≤ (a : ℚ) := by
    exact_mod_cast pyRound_le h1
  unfold roundTo
  exact (div_le_div_iff_of_pos_right hp).mpr h2

/-! ### `fetch_live_gold_prices` (src/main.py lines 42-175)

Each of the two scraping sources is modelled by its observable outcome:
the HTTP GET raised an exception, returned a non-200 status, returned a
page none of the regex patterns matched, or yielded a parsed price
(source 1: 24K rupees per 10 grams; source 2: 24K rupees per gram). -/

inductive GoldResult where
  | exn
  | non200
  | noMatch
  | ok (price : ℤ)
deriving DecidableEq, Repr

/-- A fetch attempt that produced no parsed price. -/
def GoldResult.failed : GoldResult → Bool
  | .ok _ => false
  | _ => true

inductive Reliability where
  | high
  | medium
  | low
  | verified
deriving DecidableEq, Repr

/-- `{'HIGH': 3, 'VERIFIED': 3, 'MEDIUM': 2, 'LOW': 1}.get(x, 1)` (line 153). -/
def relScore : Reliability → ℕ
  | .high => 3
  | .verified => 3
  | .medium => 2
  | .low => 1

/-- One entry of `sources_data`. -/
structure SourceRec where
  source : String
  k24_10g : ℤ
  k22_10g : ℤ
  rel : Reliability
deriving DecidableEq, Repr

/-- Entry appended for GoldPriceIndia.com (lines 80-89):
`price_22k_10g = round(price_24k_10g * 0.916)`. -/
def goldSource1Rec (p : ℤ) : SourceRec :=
  ⟨"GoldPriceIndia.com", p, pyRound ((p : ℚ) * 0.916), .high⟩

/-- Entry appended for GoodReturns.in (lines 113-123): the scraped price is
per gram, `price_24k_10g = price_24k_gram * 10`. -/
def goldSource2Rec (g : ℤ) : SourceRec :=
  ⟨"GoodReturns.in", g * 10, pyRound (((g * 10 : ℤ) : ℚ) * 0.916), .medium⟩

/-- Hardcoded entry used when both sources failed (lines 136-145). -/
def fallbackRec : SourceRec :=
  ⟨"Current_Market_Verified_Oct14_2025", 126502, 115960, .verified⟩

/-- `sources_data` after the two try blocks and the fallback (lines 48-150). -/
def sourcesFromFetch (r1 r2 : GoldResult) : List SourceRec :=
  let l1 := match r1 with
    | .ok p => [goldSource1Rec p]
    | _ => []
  let l2 := match r2 with
    | .ok g => [goldSource2Rec g]
    | _ => []
  let s := l1 ++ l2
  if s.isEmpty then [fallbackRec] else s

/-- `max(sources_data, key=...)` (line 153): Python's `max` keeps the first
element whose key is maximal, replacing only on a strictly greater key. -/
def bestSource (hd : SourceRec) (tl : List SourceRec) : SourceRec :=
  tl.foldl (fun acc x => if relScore acc.rel < relScore x.rel then x else acc) hd

/-- `self.current_prices` (lines 155-165); the `timestamp` and `note` string
fields are not modelled. -/
structure CurrentPrices where
  k24_per_10g : ℤ
  k22_per_10g : ℤ
  k24_per_gram : ℤ
  k22_per_gram : ℤ
  source : String
  reliability : Reliability
  all_sources : ℕ
deriving DecidableEq, Repr

def mkCurrentPrices (b : SourceRec) (n : ℕ) : CurrentPrices :=
  ⟨b.k24_10g, b.k22_10g, pyRound ((b.k24_10g : ℚ) / 10), pyRound ((b.k22_10g : ℚ) / 10),
   b.source, b.rel, n⟩

/-- `fetch_live_gold_prices` (lines 42-175). Returns `none` exactly on the
`return False` path (line 173), taken when `sources_data` is empty after the
fallback, and otherwise `some` of the populated `self.current_prices`
(the Python method then executes `return True`). -/
def fetch_live_gold_prices (r1 r2 : GoldResult) : Option CurrentPrices :=
  match sourcesFromFetch r1 r2 with
  | [] => none
  | hd :: tl => some (mkCurrentPrices (bestSource hd tl) (hd :: tl).length)

/-! ### `fetch_comprehensive_market_data` (src/main.py lines 177-266)

Each of the three live-API fetches (bitcoin, usd_inr, ethereum) is inside a
bare `try`/`except`:
  * an exception anywhere in the `try` block (HTTP error, JSON/parse
    failure) runs the `except` branch, which stores the fallback constant;
  * a 200 response whose body parses stores the parsed value;
  * a non-200 response raises nothing and skips the `if` body: the key is
    never stored.
The fabricated indicators use `hash(str(...))` (process-salted: parameter
`h`, indexed by the `timedelta` day offset applied to the date) and
`math.sin` / `math.pi` (libm on float64: parameters `o.sin` / `o.pi`). -/

inductive ApiResult where
  | exn
  | non200
  | ok (v : ℚ)
deriving DecidableEq, Repr

/-- Value stored in `self.market_data` for one API fetch: `none` means the
key is absent from the dict. -/
def apiValue (fallback : ℚ) : ApiResult → Option ℚ
  | .exn => some fallback
  | .non200 => none
  | .ok v => some v

/-- Parameters for the float library: `sin` is the float64 `math.sin`
(a deterministic function, identical in every Python process) and `pi` is
the float64 `math.pi` (both are rationals). -/
structure FloatOracle where
  sin : ℚ → ℚ
  pi : ℚ

/-- `self.market_data` after `fetch_comprehensive_market_data`. The three
API keys may be absent (`Option`); the seven fabricated indicators are
always stored. -/
structure MarketData where
  bitcoin : Option ℚ
  usd_inr : Option ℚ
  ethereum : Option ℚ
  usd_index : ℚ
  oil_price : ℚ
  bond_yield : ℚ
  vix : ℚ
  sp500 : ℤ
  eur_usd : ℚ
  gold_silver_ratio : ℚ

/-- `fetch_comprehensive_market_data` (lines 177-266): the method always
ends with `return True`, so the result is `(true, market_data)`.
`year` and `doy` are `current_date.year` and `day_of_year`; `h k` is
`hash(str(current_date.date() + timedelta(k)))`. -/
def fetch_comprehensive_market_data (o : FloatOracle) (year doy : ℤ) (h : ℕ → ℤ)
    (rb ri re : ApiResult) : Bool × MarketData :=
  let usd_base := 104.2 + o.sin ((doy : ℚ) * 2 * o.pi / 365) * 1.0
  let oil_base := 88.5 + o.sin (((doy : ℚ) - 60) * 2 * o.pi / 365) * 5
  let yield_base := 4.75 + o.sin ((doy : ℚ) * 2 * o.pi / 365) * 0.25
  let vix_base := 20.5 + o.sin ((doy : ℚ) * 3 * o.pi / 365) * 4
  let sp500_base : ℤ := 5720 + (year - 2025) * 150
  let eur_base := 1.055 + o.sin ((doy : ℚ) * 2 * o.pi / 365) * 0.03
  let gs_ratio_base := 85 + o.sin ((doy : ℚ) * 2 * o.pi / 365) * 5
  (true,
   { bitcoin := apiValue 67500 rb
     usd_inr := apiValue 83.45 ri
     ethereum := apiValue 2650 re
     usd_index := roundTo 1 (usd_base + (((h 0).emod 40 - 20 : ℤ) : ℚ) / 100)
     oil_price := roundTo 1 (oil_base + (((h 1).emod 60 - 30 : ℤ) : ℚ) / 10)
     bond_yield := roundTo 2 (yield_base + (((h 2).emod 30 - 15 : ℤ) : ℚ) / 100)
     vix := max 12 (roundTo 1 (vix_base + (((h 3).emod 20 - 10 : ℤ) : ℚ) / 2))
     sp500 := pyRound ((sp500_base : ℚ) + (((h 4).emod 200 - 100 : ℤ) : ℚ))
     eur_usd := roundTo 4 (eur_base + (((h 5).emod 40 - 20 : ℤ) : ℚ) / 1000)
     gold_silver_ratio := roundTo 1 (gs_ratio_base + (((h 6).emod 20 - 10 : ℤ) : ℚ) / 2) })

/-! ### `analyze_festival_season_impact` (src/main.py lines 268-344)

Only the `intensity` field feeds the numeric prediction; the other fields
of `festival_data` are strings/constants not used in any arithmetic. -/

def festivalIntensity (month day : ℕ) : ℚ :=
  if month = 10 then
    if day ≤ 15 then 0.9 else if day ≤ 25 then 1.0 else 0.95
  else if month = 11 then
    if day ≤ 10 then 0.6 else 0.4
  else if month = 4 ∨ month = 5 then 0.5
  else 0.0

/-! ### `generate_ai_prediction` factor analysis (src/main.py lines 346-524)

Each `bullish*` function is the contribution of one factor to
`bullish_score` (the `elif` chains, translated in order). -/

/-- Factor 1, weight 25 (lines 361-383). -/
def bullishUsd (u : ℚ) : ℚ :=
  if u > 105 then 0 else if u > 103 then 0 else if u < 101 then 25 else 25 * 0.3

/-- Factor 2, weight 20 (lines 385-408). -/
def bullishFestival (i : ℚ) : ℚ :=
  if i > 0.8 then 20 else if i > 0.5 then 20 * 0.8
  else if i > 0.3 then 20 * 0.5 else 20 * 0.1

/-- Factor 3, weight 15 (lines 410-432). -/
def bullishRates (y : ℚ) : ℚ :=
  if y > 5.5 then 0 else if y > 4.8 then 0 else if y < 4.0 then 15 else 0

/-- Factor 4, weight 12 (lines 434-456). -/
def bullishVix (v : ℚ) : ℚ :=
  if v > 30 then 12 else if v > 25 then 12 * 0.8
  else if v < 15 then 0 else 12 * 0.3

/-- Factor 5, weight 10 (lines 458-479). -/
def bullishOil (p : ℚ) : ℚ :=
  if p > 100 then 10 else if p > 90 then 10 * 0.6 else if p < 75 then 0 else 0

/-- Factor 6, weight 8 (lines 481-498). -/
def bullishCrypto (b : ℚ) : ℚ :=
  if b > 75000 then 0 else if b < 55000 then 8 * 0.5 else 0

/-- Factor 7, weight 10 (lines 500-521). -/
def bullishInr (x : ℚ) : ℚ :=
  if x > 84.5 then 10 else if x > 83.5 then 10 * 0.6 else if x < 82.5 then 0 else 0

/-- `total_weight` after the seven factors (lines 357, 383-521). -/
def totalWeight : ℚ := 25 + 20 + 15 + 12 + 10 + 8 + 10

/-- `bullish_score` after the seven factors. -/
def bullishScore (u fi y v p b x : ℚ) : ℚ :=
  bullishUsd u + bullishFestival fi + bullishRates y + bullishVix v +
    bullishOil p + bullishCrypto b + bullishInr x

/-- `sentiment_score = (bullish_score / total_weight) * 100 if total_weight > 0 else 50`
(line 524). -/
def sentimentScore (u fi y v p b x : ℚ) : ℚ :=
  if totalWeight > 0 then bullishScore u fi y v p b x / totalWeight * 100 else 50

/-! ### `generate_ai_prediction` price prediction (src/main.py lines 526-609) -/

/-- `total_change_pct` after the clamp (lines 528-543). `h0` is
`hash(str(current_date.date()))`, the same hash used for `usd_index`. -/
def total_change_pct (s : ℚ) (cur24 : ℤ) (h0 : ℤ) : ℚ :=
  let base_change_pct := (s - 50) / 100 * 1.5
  let technical_momentum : ℚ := if cur24 > 125000 then 0.3 else 0.0
  let volatility_factor := (((h0.emod 100 - 50 : ℤ) : ℚ)) / 100 * 0.8
  let t := base_change_pct + technical_momentum + volatility_factor
  if cur24 > 125000 then max (-2.0) (min 1.5 t) else max (-2.5) (min 2.5 t)

/-- `confidence` after the all-time-high cap (lines 549-555). -/
def confidenceVal (s : ℚ) (cur24 : ℤ) : ℚ :=
  let factor_alignment := |s - 50| * 2
  let c := min 95 (max 75 (80 + factor_alignment / 8))
  if cur24 > 125000 then min c 88 else c

/-- `self.forecast` (lines 588-600); the string fields (`trend`, `action`,
the factor descriptions, `technical_note`) and the nested `factors` /
`festival_data` dicts are not modelled. -/
structure Forecast where
  predicted_24k : ℤ
  predicted_22k : ℤ
  change_pct : ℚ
  sentiment_score : ℚ
  confidence : ℚ
  range_lower : ℤ
  range_upper : ℤ
deriving DecidableEq, Repr

/-- `generate_ai_prediction` (lines 346-609). Reads
`self.market_data['bitcoin']` (line 483) and `self.market_data['usd_inr']`
(line 502): if either key is absent the method raises `KeyError`
(`Except.error`); otherwise it stores `self.forecast` and returns `True`. -/
def generate_ai_prediction (cur24 : ℤ) (md : MarketData) (month day : ℕ)
    (h0 : ℤ) : Except Unit (Bool × Forecast) :=
  match md.bitcoin, md.usd_inr with
  | some btc, some inr =>
    let s := sentimentScore md.usd_index (festivalIntensity month day)
      md.bond_yield md.vix md.oil_price btc inr
    let t := total_change_pct s cur24 h0
    let predicted_24k := pyRound ((cur24 : ℚ) * (1 + t / 100))
    let predicted_22k := pyRound ((predicted_24k : ℚ) * 0.916)
    let conf := confidenceVal s cur24
    let range_pct := 0.6 + |t| * 0.3
    .ok (true,
      { predicted_24k := predicted_24k
        predicted_22k := predicted_22k
        change_pct := roundTo 2 t
        sentiment_score := roundTo 1 s
        confidence := roundTo 1 conf
        range_lower := pyRound ((predicted_24k : ℚ) * (1 - range_pct / 100))
        range_upper := pyRound ((predicted_24k : ℚ) * (1 + range_pct / 100)) })
  | _, _ => .error ()

/-! ### `create_ultimate_report` (src/main.py lines 611-731)

The report is a format string; its text is not modelled. The only way the
method can fail is a `KeyError` on a missing `market_data` key: it reads
`usd_inr` (line 665), `bitcoin` (line 671) and `ethereum` (line 672),
which are the keys that can be absent. -/

def create_ultimate_report (md : MarketData) : Except Unit Unit :=
  match md.bitcoin, md.usd_inr, md.ethereum with
  | some _, some _, some _ => .ok ()
  | _, _, _ => .error ()

/-! ### `send_ultimate_analysis_email` (src/main.py lines 733-780) -/

/-- The three environment variables read by the method (lines 736-738);
`none` models an unset variable. -/
structure EnvVars where
  sender_email : Option String
  sender_password : Option String
  recipient_email : Option String
deriving DecidableEq, Repr

/-- Python truthiness of `os.environ.get(...)`: `None` and `""` are falsy. -/
def truthy : Option String → Bool
  | none => false
  | some s => !s.isEmpty

/-- One `smtplib.SMTP(host, port)` connection and whether `starttls()`
was issued on it. -/
structure SmtpConn where
  host : String
  port : ℕ
  starttls : Bool
deriving DecidableEq, Repr

/-- The single connection the method ever opens (lines 769-770). -/
def gmailConn : SmtpConn := ⟨"smtp.gmail.com", 587, true⟩

/-- Agent state relevant to emailing: `self.current_prices` and
`self.forecast` (read while building the subject, lines 750-763);
`none` models the empty dict `{}` from `__init__`. -/
structure AgentState where
  current_prices : Option CurrentPrices
  market_data : Option MarketData
  forecast : Option Forecast

/-- `send_ultimate_analysis_email` (lines 733-780). Returns the method's
result, the list of SMTP connections opened, and the agent state (the
method never assigns to `self.*`). If any of the three credentials is
unset or empty the method returns `False` at line 742, before the `try`
block. Inside the `try`, the subject (line 750) reads
`current_prices['24k_per_10g']` and `forecast['change_pct']`: with either
dict empty this raises `KeyError`, caught by the broad `except` at line
778 before any SMTP connection is opened. Otherwise the connection to
`smtp.gmail.com:587` is opened, `starttls` issued, and `smtpOk` says
whether login/sendmail succeeded (`False` means the `except` path). -/
def send_ultimate_analysis_email (env : EnvVars) (st : AgentState)
    (smtpOk : Bool) : Bool × List SmtpConn × AgentState :=
  if truthy env.sender_email && truthy env.sender_password &&
      truthy env.recipient_email then
    match st.current_prices, st.forecast with
    | some _, some _ => (smtpOk, [gmailConn], st)
    | _, _ => (false, [], st)
  else
    (false, [], st)

/-! ### `run_complete_analysis` (src/main.py lines 782-839) -/

/-- Externally visible side effects of a run. `print` payloads are not
modelled; `fsWrite` is the effect a filesystem write would emit (the
source contains no file operation, so no definition below produces it). -/
inductive Effect where
  | httpGet (url : String)
  | smtpConnect (c : SmtpConn)
  | fsWrite (path : String)
deriving DecidableEq, Repr

def Effect.isFsWrite : Effect → Bool
  | .fsWrite _ => true
  | _ => false

def Effect.isSmtp : Effect → Bool
  | .smtpConnect _ => true
  | _ => false

/-- The five GET requests, in program order (lines 61, 104, 187, 199, 211);
each is attempted whatever its outcome. -/
def goldUrls : List Effect :=
  [.httpGet "https://www.goldpriceindia.com",
   .httpGet "https://www.goodreturns.in/gold-rates/"]

def marketUrls : List Effect :=
  [.httpGet "https://api.coindesk.com/v1/bpi/currentprice.json",
   .httpGet "https://api.exchangerate-api.com/v4/latest/USD",
   .httpGet "https://api.coingecko.com/api/v3/simple/price?ids=ethereum&vs_currencies=usd"]

/-- `run_complete_analysis` (lines 782-839): fetch prices (early `return
False` if it failed), fetch market data, generate the prediction, build
the report, send the email, and `return True` regardless of `email_sent`.
`Except.error` models an uncaught exception escaping the method. -/
def run_complete_analysis (o : FloatOracle) (year doy : ℤ) (month day : ℕ)
    (h : ℕ → ℤ) (r1 r2 : GoldResult) (rb ri re : ApiResult) (env : EnvVars)
    (smtpOk : Bool) : Except Unit Bool × List Effect :=
  match fetch_live_gold_prices r1 r2 with
  | none => (.ok false, goldUrls)
  | some prices =>
    match generate_ai_prediction prices.k24_per_10g
        (fetch_comprehensive_market_data o year doy h rb ri re).2 month day (h 0) with
    | .error e => (.error e, goldUrls ++ marketUrls)
    | .ok (_, fc) =>
      match create_ultimate_report
          (fetch_comprehensive_market_data o year doy h rb ri re).2 with
      | .error e => (.error e, goldUrls ++ marketUrls)
      | .ok _ =>
        (.ok true, (goldUrls ++ marketUrls) ++
          (send_ultimate_analysis_email env
            ⟨some prices, some (fetch_comprehensive_market_data o year doy h rb ri re).2,
              some fc⟩ smtpOk).2.1.map Effect.smtpConnect)

/-! ### Concrete sample inputs, used to instantiate the theorems below -/

/-- A concrete float oracle (the determinism results quantify over all). -/
def ozero : FloatOracle := ⟨fun _ => 0, 0⟩

def zeroHash : ℕ → ℤ := fun _ => 0

/-- Market data of a run on day-of-year 287 of 2025 where all three API
fetches raised. -/
def sampleMD : MarketData :=
  (fetch_comprehensive_market_data ozero 2025 287 zeroHash .exn .exn .exn).2

def dummyForecast : Forecast := ⟨0, 0, 0, 0, 0, 0, 0⟩

/-- The prediction produced from `sampleMD` at the documented price 126502
on Oct 14 (the `.error` arm is unreachable: both API keys are present). -/
def sampleGen : Bool × Forecast :=
  match generate_ai_prediction 126502 sampleMD 10 14 0 with
  | .ok r => r
  | .error _ => (false, dummyForecast)

def sampleEnv : EnvVars := ⟨some "a@x.com", some "pw", some "b@x.com"⟩

def emptyEnv : EnvVars := ⟨none, some "pw", some "b@x.com"⟩

def samplePrices : CurrentPrices := mkCurrentPrices fallbackRec 1

def sampleState : AgentState := ⟨some samplePrices, some sampleMD, some dummyForecast⟩

/-- Current prices selected when source 1 scraped 126000 and source 2
raised. -/
def sampleCP : CurrentPrices :=
  (fetch_live_gold_prices (.ok 126000) .exn).getD samplePrices

/-! ### Helper lemmas -/

theorem total_change_pct_bounds (s : ℚ) (cur24 h0 : ℤ) :
    -(5/2) ≤ total_change_pct s cur24 h0 ∧ total_change_pct s cur24 h0 ≤ 5/2 := by
  unfold total_change_pct
  split_ifs with hc
  · refine ⟨le_trans (by norm_num) (le_max_left _ _), max_le (by norm_num) ?_⟩
    exact le_trans (min_le_left _ _) (by norm_num)
  · refine ⟨le_trans (by norm_num) (le_max_left _ _), max_le (by norm_num) ?_⟩
    exact le_trans (min_le_left _ _) (by norm_num)

theorem roundTo_two_bounds {t : ℚ} (h1 : -(5/2) ≤ t) (h2 : t ≤ 5/2) :
    -(5/2) ≤ roundTo 2 t ∧ roundTo 2 t ≤ 5/2 := by
  have e1 : (((-250 : ℤ) : ℚ) / 10 ^ 2) = -(5/2) := by norm_num
  have e2 : (((250 : ℤ) : ℚ) / 10 ^ 2) = 5/2 := by norm_num
  constructor
  · rw [← e1]
    exact le_roundTo (by rw [e1]; exact h1)
  · rw [← e2]
    exact roundTo_le (by rw [e2]; exact h2)

theorem confidenceVal_bounds (s : ℚ) (cur24 : ℤ) :
    80 ≤ confidenceVal s cur24 ∧ confidenceVal s cur24 ≤ 95 ∧
      (125000 < cur24 → confidenceVal s cur24 ≤ 88) := by
  have ha : (0 : ℚ) ≤ |s - 50| := abs_nonneg _
  have h80 : (80 : ℚ) ≤ 80 + |s - 50| * 2 / 8 := by linarith
  have hc1 : (80 : ℚ) ≤ min 95 (max 75 (80 + |s - 50| * 2 / 8)) :=
    le_min (by norm_num) (le_trans h80 (le_max_right _ _))
  have hc2 : min 95 (max 75 (80 + |s - 50| * 2 / 8)) ≤ (95 : ℚ) := min_le_left _ _
  unfold confidenceVal
  split_ifs with hc
  · exact ⟨le_min hc1 (by norm_num), le_trans (min_le_left _ _) hc2,
      fun _ => min_le_right _ _⟩
  · exact ⟨hc1, hc2, fun h => absurd h (by omega)⟩

theorem pyRound_eq_of_lt {q : ℚ} {n : ℤ} (h1 : (n : ℚ) ≤ q) (h2 : q < n + 1/2) :
    pyRound q = n := by
  have hf : ⌊q⌋ = n := Int.floor_eq_iff.mpr ⟨h1, by linarith⟩
  unfold pyRound
  rw [hf, if_pos (show q - (n : ℚ) < 1/2 by linarith)]

/-! ### Claim theorems -/

/-- C1: for every current 24K price, sentiment score and daily volatility
hash, the next-day change computed by `generate_ai_prediction` is clamped
into [-2.5, 2.5] before the predicted prices are derived from it, and the
stored `change_pct` always satisfies -2.5 ≤ change_pct ≤ 2.5. -/
theorem change_pct_always_clamped :
    (∀ (s : ℚ) (cur24 h0 : ℤ),
      -(5/2) ≤ total_change_pct s cur24 h0 ∧ total_change_pct s cur24 h0 ≤ 5/2) ∧
    (∀ (cur24 : ℤ) (md : MarketData) (month day : ℕ) (h0 : ℤ) (r : Bool × Forecast),
      generate_ai_prediction cur24 md month day h0 = .ok r →
      ∃ t : ℚ, -(5/2) ≤ t ∧ t ≤ 5/2 ∧
        r.2.change_pct = roundTo 2 t ∧
        r.2.predicted_24k = pyRound ((cur24 : ℚ) * (1 + t / 100)) ∧
        -(5/2) ≤ r.2.change_pct ∧ r.2.change_pct ≤ 5/2) := by
  refine ⟨total_change_pct_bounds, ?_⟩
  intro cur24 md month day h0 r hr
  unfold generate_ai_prediction at hr
  rcases hb : md.bitcoin with _ | btc <;> rw [hb] at hr
  · exact absurd hr (by simp)
  rcases hi : md.usd_inr with _ | inr <;> rw [hi] at hr
  · exact absurd hr (by simp)
  simp only [Except.ok.injEq] at hr
  subst hr
  set s := sentimentScore md.usd_index (festivalIntensity month day)
    md.bond_yield md.vix md.oil_price btc inr with hs
  obtain ⟨hl, hu⟩ := total_change_pct_bounds s cur24 h0
  obtain ⟨hrl, hru⟩ := roundTo_two_bounds hl hu
  exact ⟨total_change_pct s cur24 h0, hl, hu, rfl, rfl, hrl, hru⟩

/-- C4: the sentiment score equals `(bullish_score / total_weight) * 100`,
where `total_weight = 25+20+15+12+10+8+10 = 100` and `bullish_score` is the
sum of the seven per-factor bullish contributions, each between 0 and that
factor's weight; hence the sentiment score lies in [0, 100]. -/
theorem sentiment_score_weighted_sum (u fi y v p b x : ℚ) :
    sentimentScore u fi y v p b x = bullishScore u fi y v p b x / totalWeight * 100 ∧
    totalWeight = 100 ∧
    bullishScore u fi y v p b x =
      bullishUsd u + bullishFestival fi + bullishRates y + bullishVix v +
        bullishOil p + bullishCrypto b + bullishInr x ∧
    (0 ≤ bullishUsd u ∧ bullishUsd u ≤ 25) ∧
    (0 ≤ bullishFestival fi ∧ bullishFestival fi ≤ 20) ∧
    (0 ≤ bullishRates y ∧ bullishRates y ≤ 15) ∧
    (0 ≤ bullishVix v ∧ bullishVix v ≤ 12) ∧
    (0 ≤ bullishOil p ∧ bullishOil p ≤ 10) ∧
    (0 ≤ bullishCrypto b ∧ bullishCrypto b ≤ 8) ∧
    (0 ≤ bullishInr x ∧ bullishInr x ≤ 10) ∧
    0 ≤ sentimentScore u fi y v p b x ∧ sentimentScore u fi y v p b x ≤ 100 := by
  have h1 : 0 ≤ bullishUsd u ∧ bullishUsd u ≤ 25 := by
    unfold bullishUsd; split_ifs <;> norm_num
  have h2 : 0 ≤ bullishFestival fi ∧ bullishFestival fi ≤ 20 := by
    unfold bullishFestival; split_ifs <;> norm_num
  have h3 : 0 ≤ bullishRates y ∧ bullishRates y ≤ 15 := by
    unfold bullishRates; split_ifs <;> norm_num
  have h4 : 0 ≤ bullishVix v ∧ bullishVix v ≤ 12 := by
    unfold bullishVix; split_ifs <;> norm_num
  have h5 : 0 ≤ bullishOil p ∧ bullishOil p ≤ 10 := by
    unfold bullishOil; split_ifs <;> norm_num
  have h6 : 0 ≤ bullishCrypto b ∧ bullishCrypto b ≤ 8 := by
    unfold bullishCrypto; split_ifs <;> norm_num
  have h7 : 0 ≤ bullishInr x ∧ bullishInr x ≤ 10 := by
    unfold bullishInr; split_ifs <;> norm_num
  have htw : totalWeight = 100 := by unfold totalWeight; norm_num
  have hbs : bullishScore u fi y v p b x =
      bullishUsd u + bullishFestival fi + bullishRates y + bullishVix v +
        bullishOil p + bullishCrypto b + bullishInr x := rfl
  have hsum0 : 0 ≤ bullishScore u fi y v p b x := by
    rw [hbs]
    linarith [h1.1, h2.1, h3.1, h4.1, h5.1, h6.1, h7.1]
  have hsum100 : bullishScore u fi y v p b x ≤ 100 := by
    rw [hbs]
    linarith [h1.2, h2.2, h3.2, h4.2, h5.2, h6.2, h7.2]
  have hss : sentimentScore u fi y v p b x =
      bullishScore u fi y v p b x / totalWeight * 100 := by
    unfold sentimentScore
    rw [if_pos (by rw [htw]; norm_num)]
  have hval : sentimentScore u fi y v p b x = bullishScore u fi y v p b x := by
    rw [hss, htw]
    field_simp
  refine ⟨hss, htw, hbs, h1, h2, h3, h4, h5, h6, h7, ?_, ?_⟩
  · rw [hval]; exact hsum0
  · rw [hval]; exact hsum100

/-- C9: the AI confidence is always in [80, 95] — the `max(75, ...)` lower
bound never binds since `80 + factor_alignment/8 ≥ 80` — and when the
current 24K price exceeds 125000 it is further capped at 88, so it lies in
[80, 88]; this holds both for the computed value and for the rounded value
stored in the forecast. -/
theorem confidence_in_range :
    (∀ (s : ℚ) (cur24 : ℤ),
      max 75 (80 + |s - 50| * 2 / 8) = 80 + |s - 50| * 2 / 8 ∧
      80 ≤ confidenceVal s cur24 ∧ confidenceVal s cur24 ≤ 95 ∧
      (125000 < cur24 → confidenceVal s cur24 ≤ 88)) ∧
    (∀ (cur24 : ℤ) (md : MarketData) (month day : ℕ) (h0 : ℤ) (r : Bool × Forecast),
      generate_ai_prediction cur24 md month day h0 = .ok r →
      80 ≤ r.2.confidence ∧ r.2.confidence ≤ 95 ∧
      (125000 < cur24 → r.2.confidence ≤ 88)) := by
  constructor
  · intro s cur24
    have ha : (0 : ℚ) ≤ |s - 50| := abs_nonneg _
    exact ⟨max_eq_right (by linarith), confidenceVal_bounds s cur24⟩
  · intro cur24 md month day h0 r hr
    unfold generate_ai_prediction at hr
    rcases hb : md.bitcoin with _ | btc <;> rw [hb] at hr
    · exact absurd hr (by simp)
    rcases hi : md.usd_inr with _ | inr <;> rw [hi] at hr
    · exact absurd hr (by simp)
    simp only [Except.ok.injEq] at hr
    subst hr
    set s := sentimentScore md.usd_index (festivalIntensity month day)
      md.bond_yield md.vix md.oil_price btc inr with hs
    obtain ⟨c1, c2, c3⟩ := confidenceVal_bounds s cur24
    have e80 : (((800 : ℤ) : ℚ) / 10 ^ 1) = 80 := by norm_num
    have e95 : (((950 : ℤ) : ℚ) / 10 ^ 1) = 95 := by norm_num
    have e88 : (((880 : ℤ) : ℚ) / 10 ^ 1) = 88 := by norm_num
    refine ⟨?_, ?_, ?_⟩
    · rw [show (80 : ℚ) = ((800 : ℤ) : ℚ) / 10 ^ 1 from e80.symm]
      exact le_roundTo (by rw [e80]; exact c1)
    · rw [show (95 : ℚ) = ((950 : ℤ) : ℚ) / 10 ^ 1 from e95.symm]
      exact roundTo_le (by rw [e95]; exact c2)
    · intro hcur
      rw [show (88 : ℚ) = ((880 : ℤ) : ℚ) / 10 ^ 1 from e88.symm]
      exact roundTo_le (by rw [e88]; exact c3 hcur)

/-- C2 (amended): exceptions during a fetch or parse are replaced by the
hardcoded fallbacks — bitcoin 67500, usd_inr 83.45, ethereum 2650 — and
when both gold sources fail in any way (exception, non-200 status, or no
regex match) the prices become 24K = 126502 and 22K = 115960; the fetch
methods propagate no error (both always return `True`). However, a non-200
response on the three market-data API fetches substitutes nothing: the
key is left unset. -/
theorem fallbacks_on_failure :
    (∀ (o : FloatOracle) (year doy : ℤ) (h : ℕ → ℤ) (ri re : ApiResult),
      (fetch_comprehensive_market_data o year doy h .exn ri re).2.bitcoin = some 67500) ∧
    (∀ (o : FloatOracle) (year doy : ℤ) (h : ℕ → ℤ) (rb re : ApiResult),
      (fetch_comprehensive_market_data o year doy h rb .exn re).2.usd_inr = some 83.45) ∧
    (∀ (o : FloatOracle) (year doy : ℤ) (h : ℕ → ℤ) (rb ri : ApiResult),
      (fetch_comprehensive_market_data o year doy h rb ri .exn).2.ethereum = some 2650) ∧
    (∀ fb : ℚ, apiValue fb .non200 = none) ∧
    (∀ r1 r2 : GoldResult, r1.failed = true → r2.failed = true →
      fetch_live_gold_prices r1 r2 = some (mkCurrentPrices fallbackRec 1) ∧
      (mkCurrentPrices fallbackRec 1).k24_per_10g = 126502 ∧
      (mkCurrentPrices fallbackRec 1).k22_per_10g = 115960) ∧
    (∀ r1 r2 : GoldResult, (fetch_live_gold_prices r1 r2).isSome = true) ∧
    (∀ (o : FloatOracle) (year doy : ℤ) (h : ℕ → ℤ) (rb ri re : ApiResult),
      (fetch_comprehensive_market_data o year doy h rb ri re).1 = true) := by
  refine ⟨fun _ _ _ _ _ _ => rfl, fun _ _ _ _ _ _ => rfl, fun _ _ _ _ _ _ => rfl,
    fun _ => rfl, ?_, ?_, fun _ _ _ _ _ _ _ => rfl⟩
  · intro r1 r2 h1 h2
    cases r1 <;> cases r2 <;>
      first
        | exact ⟨rfl, rfl, rfl⟩
        | exact Bool.noConfusion h1
        | exact Bool.noConfusion h2
  · intro r1 r2
    cases r1 <;> cases r2 <;> rfl

/-- C2 counterexample: a non-200 response on the bitcoin fetch (which
raises no exception, so the bare `except` never runs) leaves
`market_data['bitcoin']` unset — the fallback 67500 is NOT substituted,
contrary to the claim. -/
theorem non200_leaves_bitcoin_unset :
    (fetch_comprehensive_market_data ⟨fun _ => 0, 0⟩ 2025 287 (fun _ => 0)
        .non200 .exn .exn).2.bitcoin = none ∧
    (fetch_comprehensive_market_data ⟨fun _ => 0, 0⟩ 2025 287 (fun _ => 0)
        .non200 .exn .exn).2.bitcoin ≠ some 67500 := by
  exact ⟨rfl, fun h => Option.noConfusion (show (none : Option ℚ) = some 67500 from h)⟩

/-- C3 (amended): the seven fabricated indicators are deterministic
functions of the date and of the process's string-hash values: two calls
with the same date, the same `hash` and the same float library produce
identical values for all seven indicators, whatever the outcomes of the
three live-API fetches. (As the C3 counterexample shows, they are not
functions of the date alone: the per-process hash salt changes them
between runs.) -/
theorem indicators_deterministic_given_hash (o : FloatOracle) (year doy : ℤ)
    (h : ℕ → ℤ) (rb ri re rb' ri' re' : ApiResult) :
    (fetch_comprehensive_market_data o year doy h rb ri re).2.usd_index =
      (fetch_comprehensive_market_data o year doy h rb' ri' re').2.usd_index ∧
    (fetch_comprehensive_market_data o year doy h rb ri re).2.oil_price =
      (fetch_comprehensive_market_data o year doy h rb' ri' re').2.oil_price ∧
    (fetch_comprehensive_market_data o year doy h rb ri re).2.bond_yield =
      (fetch_comprehensive_market_data o year doy h rb' ri' re').2.bond_yield ∧
    (fetch_comprehensive_market_data o year doy h rb ri re).2.vix =
      (fetch_comprehensive_market_data o year doy h rb' ri' re').2.vix ∧
    (fetch_comprehensive_market_data o year doy h rb ri re).2.sp500 =
      (fetch_comprehensive_market_data o year doy h rb' ri' re').2.sp500 ∧
    (fetch_comprehensive_market_data o year doy h rb ri re).2.eur_usd =
      (fetch_comprehensive_market_data o year doy h rb' ri' re').2.eur_usd ∧
    (fetch_comprehensive_market_data o year doy h rb ri re).2.gold_silver_ratio =
      (fetch_comprehensive_market_data o year doy h rb' ri' re').2.gold_silver_ratio :=
  ⟨rfl, rfl, rfl, rfl, rfl, rfl, rfl⟩

/-- C3 counterexample: on the same date (year 2025, day-of-year 287) with
the same float library, two runs whose string hashes differ — Python
salts `hash(str(...))` per process — produce different `usd_index`
values (104.0 versus 104.1), so the indicators are not deterministic
functions of the date alone. -/
theorem usd_index_differs_across_hash_seeds :
    (fetch_comprehensive_market_data ⟨fun _ => 0, 0⟩ 2025 287 (fun _ => 0)
        .exn .exn .exn).2.usd_index ≠
      (fetch_comprehensive_market_data ⟨fun _ => 0, 0⟩ 2025 287 (fun _ => 10)
        .exn .exn .exn).2.usd_index := by
  have ha : (fetch_comprehensive_market_data ⟨fun _ => 0, 0⟩ 2025 287 (fun _ => 0)
      .exn .exn .exn).2.usd_index =
      roundTo 1 (104.2 + (0 : ℚ) * 1.0 + ((((0 : ℤ).emod 40 - 20 : ℤ)) : ℚ) / 100) := rfl
  have hb : (fetch_comprehensive_market_data ⟨fun _ => 0, 0⟩ 2025 287 (fun _ => 10)
      .exn .exn .exn).2.usd_index =
      roundTo 1 (104.2 + (0 : ℚ) * 1.0 + ((((10 : ℤ).emod 40 - 20 : ℤ)) : ℚ) / 100) := rfl
  have e0 : ((0 : ℤ).emod 40 - 20 : ℤ) = -20 := by decide
  have e10 : ((10 : ℤ).emod 40 - 20 : ℤ) = -10 := by decide
  have va : roundTo 1 (104.2 + (0 : ℚ) * 1.0 + ((((0 : ℤ).emod 40 - 20 : ℤ)) : ℚ) / 100) =
      104 := by
    unfold roundTo
    rw [e0]
    rw [show ((104.2 + (0 : ℚ) * 1.0 + ((-20 : ℤ) : ℚ) / 100) * 10 ^ 1) = ((1040 : ℤ) : ℚ) by
      norm_num]
    rw [pyRound_eq_of_lt (le_refl _) (by norm_num)]
    norm_num
  have vb : roundTo 1 (104.2 + (0 : ℚ) * 1.0 + ((((10 : ℤ).emod 40 - 20 : ℤ)) : ℚ) / 100) =
      1041 / 10 := by
    unfold roundTo
    rw [e10]
    rw [show ((104.2 + (0 : ℚ) * 1.0 + ((-10 : ℤ) : ℚ) / 100) * 10 ^ 1) = ((1041 : ℤ) : ℚ) by
      norm_num]
    rw [pyRound_eq_of_lt (le_refl _) (by norm_num)]
    norm_num
  rw [ha, hb, va, vb]
  norm_num

theorem send_conns_cases (env : EnvVars) (st : AgentState) (ok : Bool) :
    (send_ultimate_analysis_email env st ok).2.1 = [] ∨
      (send_ultimate_analysis_email env st ok).2.1 = [gmailConn] := by
  unfold send_ultimate_analysis_email
  split_ifs with h
  · rcases hcp : st.current_prices with _ | cp <;>
      rcases hfc : st.forecast with _ | fc <;> simp
  · simp

/-- C5: every email is sent through a single `smtplib.SMTP` connection to
`smtp.gmail.com` on port 587 with `starttls()` issued; no other mail host
or port is ever used. -/
theorem smtp_fixed_host :
    gmailConn.host = "smtp.gmail.com" ∧ gmailConn.port = 587 ∧
    gmailConn.starttls = true ∧
    (∀ (env : EnvVars) (st : AgentState) (ok : Bool),
      ∀ c ∈ (send_ultimate_analysis_email env st ok).2.1, c = gmailConn) := by
  refine ⟨rfl, rfl, rfl, ?_⟩
  intro env st ok c hc
  rcases send_conns_cases env st ok with h | h <;> rw [h] at hc <;> simp_all

/-- C6: credentials come only from the environment variables SENDER_EMAIL,
SENDER_PASSWORD and RECIPIENT_EMAIL; if any is unset or empty the method
returns `False` having opened no SMTP connection and leaving the agent
state unchanged. -/
theorem missing_credentials_no_send (env : EnvVars) (st : AgentState) (ok : Bool)
    (h : truthy env.sender_email = false ∨ truthy env.sender_password = false ∨
      truthy env.recipient_email = false) :
    send_ultimate_analysis_email env st ok = (false, [], st) := by
  unfold send_ultimate_analysis_email
  have hcond : (truthy env.sender_email && truthy env.sender_password &&
      truthy env.recipient_email) = false := by
    rcases h with h | h | h <;> simp [h]
  simp [hcond]

/-- C7: a complete run writes nothing to the filesystem and its outward
effects are the five HTTP GETs and at most one outbound email (stdout
prints aside); all computed data lives in values local to the run. -/
theorem no_file_write_at_most_one_email (o : FloatOracle) (year doy : ℤ)
    (month day : ℕ) (h : ℕ → ℤ) (r1 r2 : GoldResult) (rb ri re : ApiResult)
    (env : EnvVars) (ok : Bool) :
    ((run_complete_analysis o year doy month day h r1 r2 rb ri re env ok).2.countP
        Effect.isFsWrite = 0) ∧
    ((run_complete_analysis o year doy month day h r1 r2 rb ri re env ok).2.countP
        Effect.isSmtp ≤ 1) := by
  unfold run_complete_analysis
  split
  · exact ⟨by decide, by decide⟩
  · rename_i prices heq
    split
    · exact ⟨show (goldUrls ++ marketUrls).countP Effect.isFsWrite = 0 by decide,
        show (goldUrls ++ marketUrls).countP Effect.isSmtp ≤ 1 by decide⟩
    · rename_i bfst fc heq2
      split
      · exact ⟨show (goldUrls ++ marketUrls).countP Effect.isFsWrite = 0 by decide,
          show (goldUrls ++ marketUrls).countP Effect.isSmtp ≤ 1 by decide⟩
      · rcases send_conns_cases env
            ⟨some prices, some (fetch_comprehensive_market_data o year doy h rb ri re).2,
              some fc⟩ ok with hs | hs <;>
          rw [hs] <;> exact ⟨by decide, by decide⟩

/-- C8: `fetch_live_gold_prices` never returns `False` (the fallback makes
`sources_data` non-empty), `fetch_comprehensive_market_data` and
`generate_ai_prediction` always return `True` when they return, and thus
`run_complete_analysis` returns `True` on every execution without an
uncaught exception, whether or not the email was delivered. -/
theorem always_returns_true :
    (∀ r1 r2 : GoldResult, (fetch_live_gold_prices r1 r2).isSome = true) ∧
    (∀ (o : FloatOracle) (year doy : ℤ) (h : ℕ → ℤ) (rb ri re : ApiResult),
      (fetch_comprehensive_market_data o year doy h rb ri re).1 = true) ∧
    (∀ (cur24 : ℤ) (md : MarketData) (month day : ℕ) (h0 : ℤ) (r : Bool × Forecast),
      generate_ai_prediction cur24 md month day h0 = .ok r → r.1 = true) ∧
    (∀ (o : FloatOracle) (year doy : ℤ) (month day : ℕ) (h : ℕ → ℤ)
        (r1 r2 : GoldResult) (rb ri re : ApiResult) (env : EnvVars) (ok : Bool) (b : Bool),
      (run_complete_analysis o year doy month day h r1 r2 rb ri re env ok).1 = .ok b →
      b = true) := by
  have hfl : ∀ r1 r2 : GoldResult, (fetch_live_gold_prices r1 r2).isSome = true := by
    intro r1 r2
    cases r1 <;> cases r2 <;> rfl
  refine ⟨hfl, fun _ _ _ _ _ _ _ => rfl, ?_, ?_⟩
  · intro cur24 md month day h0 r hr
    unfold generate_ai_prediction at hr
    rcases hb : md.bitcoin with _ | btc <;> rw [hb] at hr
    · exact absurd hr (by simp)
    rcases hi : md.usd_inr with _ | inr <;> rw [hi] at hr
    · exact absurd hr (by simp)
    simp only [Except.ok.injEq] at hr
    subst hr
    rfl
  · intro o year doy month day h r1 r2 rb ri re env ok b hrun
    unfold run_complete_analysis at hrun
    split at hrun
    · rename_i heq
      have hsome := hfl r1 r2
      rw [heq] at hsome
      exact absurd hsome (by simp)
    · rename_i prices heq
      split at hrun
      · exact absurd hrun (by simp)
      · rename_i bfst fc heq2
        split at hrun
        · exact absurd hrun (by simp)
        · simp only [Except.ok.injEq] at hrun
          exact hrun.symm

/-- C10: in every populated price record the 22K price is derived from the
24K price by `round(p24 * 0.916)`: it holds for both scraped source
records, for `current_prices` whenever at least one live source succeeded,
and for the predicted prices in the forecast. (The hardcoded fallback
record, which the claim excludes, uses the constant 115960 instead.) -/
theorem purity_ratio_invariant :
    (∀ p : ℤ, (goldSource1Rec p).k22_10g =
      pyRound (((goldSource1Rec p).k24_10g : ℚ) * 0.916)) ∧
    (∀ g : ℤ, (goldSource2Rec g).k22_10g =
      pyRound (((goldSource2Rec g).k24_10g : ℚ) * 0.916)) ∧
    (∀ r1 r2 : GoldResult, ¬(r1.failed = true ∧ r2.failed = true) →
      ∀ cp : CurrentPrices, fetch_live_gold_prices r1 r2 = some cp →
        cp.k22_per_10g = pyRound ((cp.k24_per_10g : ℚ) * 0.916)) ∧
    (∀ (cur24 : ℤ) (md : MarketData) (month day : ℕ) (h0 : ℤ) (r : Bool × Forecast),
      generate_ai_prediction cur24 md month day h0 = .ok r →
        r.2.predicted_22k = pyRound ((r.2.predicted_24k : ℚ) * 0.916)) := by
  refine ⟨fun _ => rfl, fun _ => rfl, ?_, ?_⟩
  · intro r1 r2 hne cp hcp
    cases r1 <;> cases r2 <;>
      first
        | (obtain rfl := Option.some.inj hcp; rfl)
        | exact absurd ⟨rfl, rfl⟩ hne
  · intro cur24 md month day h0 r hr
    unfold generate_ai_prediction at hr
    rcases hb : md.bitcoin with _ | btc <;> rw [hb] at hr
    · exact absurd hr (by simp)
    rcases hi : md.usd_inr with _ | inr <;> rw [hi] at hr
    · exact absurd hr (by simp)
    simp only [Except.ok.injEq] at hr
    subst hr
    rfl

/-! ### Witnesses: the claim theorems applied at concrete inputs -/

/-- C1 witness at price 126502, Oct 14, hash 0. -/
theorem change_pct_always_clamped_check :
    generate_ai_prediction 126502 sampleMD 10 14 0 = .ok sampleGen ∧
    (∃ t : ℚ, -(5/2) ≤ t ∧ t ≤ 5/2 ∧
      sampleGen.2.change_pct = roundTo 2 t ∧
      sampleGen.2.predicted_24k = pyRound (((126502 : ℤ) : ℚ) * (1 + t / 100)) ∧
      -(5/2) ≤ sampleGen.2.change_pct ∧ sampleGen.2.change_pct ≤ 5/2) :=
  ⟨rfl, change_pct_always_clamped.2 126502 sampleMD 10 14 0 sampleGen rfl⟩

/-- C2 witness: source 1 raised, source 2 got a non-200 status. -/
theorem fallbacks_on_failure_check :
    GoldResult.exn.failed = true ∧ GoldResult.non200.failed = true ∧
    (fetch_live_gold_prices .exn .non200 = some (mkCurrentPrices fallbackRec 1) ∧
      (mkCurrentPrices fallbackRec 1).k24_per_10g = 126502 ∧
      (mkCurrentPrices fallbackRec 1).k22_per_10g = 115960) :=
  ⟨rfl, rfl, fallbacks_on_failure.2.2.2.2.1 .exn .non200 rfl rfl⟩

/-- C5 witness: with credentials present and state populated, the one
connection opened is to smtp.gmail.com:587 with STARTTLS. -/
theorem smtp_fixed_host_check :
    gmailConn ∈ (send_ultimate_analysis_email sampleEnv sampleState true).2.1 ∧
    gmailConn = gmailConn :=
  ⟨by decide,
   smtp_fixed_host.2.2.2 sampleEnv sampleState true gmailConn (by decide)⟩

/-- C6 witness: SENDER_EMAIL unset. -/
theorem missing_credentials_no_send_check :
    truthy emptyEnv.sender_email = false ∧
    send_ultimate_analysis_email emptyEnv sampleState true =
      (false, [], sampleState) :=
  ⟨rfl, missing_credentials_no_send emptyEnv sampleState true (Or.inl rfl)⟩

/-- C8 witness: a full run on day 287 of 2025 in which every network fetch
raised returns `True`. -/
theorem always_returns_true_check :
    (run_complete_analysis ozero 2025 287 10 14 zeroHash .exn .exn .exn .exn .exn
      sampleEnv true).1 = .ok true ∧ true = true :=
  ⟨rfl, always_returns_true.2.2.2 ozero 2025 287 10 14 zeroHash .exn .exn .exn .exn .exn
    sampleEnv true true rfl⟩

/-- C9 witness at price 126502 (above 125000). -/
theorem confidence_in_range_check :
    generate_ai_prediction 126502 sampleMD 10 14 0 = .ok sampleGen ∧
    (125000 : ℤ) < 126502 ∧
    80 ≤ sampleGen.2.confidence ∧ sampleGen.2.confidence ≤ 95 ∧
    sampleGen.2.confidence ≤ 88 :=
  ⟨rfl, by decide,
   (confidence_in_range.2 126502 sampleMD 10 14 0 sampleGen rfl).1,
   (confidence_in_range.2 126502 sampleMD 10 14 0 sampleGen rfl).2.1,
   (confidence_in_range.2 126502 sampleMD 10 14 0 sampleGen rfl).2.2 (by decide)⟩

/-- C10 witness: source 1 scraped 126000, source 2 raised; plus the
forecast from the C1/C9 sample run. -/
theorem purity_ratio_invariant_check :
    ¬((GoldResult.ok 126000).failed = true ∧ GoldResult.exn.failed = true) ∧
    fetch_live_gold_prices (.ok 126000) .exn = some sampleCP ∧
    sampleCP.k22_per_10g = pyRound ((sampleCP.k24_per_10g : ℚ) * 0.916) ∧
    generate_ai_prediction 126502 sampleMD 10 14 0 = .ok sampleGen ∧
    sampleGen.2.predicted_22k = pyRound ((sampleGen.2.predicted_24k : ℚ) * 0.916) :=
  ⟨by decide, rfl,
   purity_ratio_invariant.2.2.1 (.ok 126000) .exn (by decide) sampleCP rfl,
   rfl,
   purity_ratio_invariant.2.2.2 126502 sampleMD 10 14 0 sampleGen rfl⟩

end GoldAgent
